import Mathlib

/-!
Verification of the mcp-nats connection supervisor, health assessor and
bounded-wait tool handlers, as a shallow embedding of the TypeScript source.

Embedded source files:
* `src/tools/stream-health.ts` — `assessHealth` and its data types;
* `src/connection.ts` — connection state, status-event handling, accessors;
* `src/tools/subscribe.ts` — the `nats_subscribe` handler's race between a
  message-collection loop and a `setTimeout` timer;
* `src/tools/kv.ts` — the `nats_kv_watch` handler's race between a watch
  iterator and a `setTimeout` timer.

JavaScript numbers that hold message counts and thresholds are embedded as
`Int` (the zod schemas admit negative inputs, and the spec declares negative
thresholds legal). Template-literal interpolation of a number is embedded as
`toString` on `Int`, which agrees with JavaScript on integers.
-/

namespace McpNats

/-- Health status verdict, from `HealthAssessment.status` in
`src/tools/stream-health.ts`. -/
inductive HealthStatus where
  | healthy
  | degraded
  | unhealthy
deriving DecidableEq, Repr

/-- Consumer metrics snapshot, from the `ConsumerHealth` interface in
`src/tools/stream-health.ts` (`last_delivery` is carried but never read by
`assessHealth`; we model it as an optional pair of sequence numbers). -/
structure ConsumerHealth where
  name : String
  pending : Int
  ack_pending : Int
  paused : Bool
  last_delivery : Option (Int × Int) := none
  lag : Int
deriving DecidableEq, Repr

/-- Result of the health assessment, from the `HealthAssessment` interface in
`src/tools/stream-health.ts`. -/
structure HealthAssessment where
  status : HealthStatus
  issues : List String
deriving DecidableEq, Repr

/-- Issue text pushed when a consumer is paused with pending messages
(`src/tools/stream-health.ts` line 53). -/
def pausedIssue (c : ConsumerHealth) : String :=
  "Consumer \"" ++ c.name ++ "\" is paused with " ++ toString c.pending
    ++ " pending messages"

/-- Issue text pushed when a consumer's lag exceeds the threshold
(`src/tools/stream-health.ts` line 61). -/
def lagIssue (c : ConsumerHealth) (lagThreshold : Int) : String :=
  "Consumer \"" ++ c.name ++ "\" lag (" ++ toString c.lag
    ++ ") exceeds threshold (" ++ toString lagThreshold ++ ")"

/-- Issue text pushed when a consumer's ack-pending count exceeds the
threshold (`src/tools/stream-health.ts` line 69). -/
def ackPendingIssue (c : ConsumerHealth) (ackPendingThreshold : Int) : String :=
  "Consumer \"" ++ c.name ++ "\" has " ++ toString c.ack_pending
    ++ " ack pending (threshold: " ++ toString ackPendingThreshold ++ ")"

/-- One iteration of the `for (const consumer of consumers)` loop body of
`assessHealth` (`src/tools/stream-health.ts` lines 50–76): the accumulator is
the `(issues, status)` pair mutated by the loop.  The three `if` statements
are sequential and independent; only the third one consults the running
status (`if (status !== "unhealthy") status = "degraded"`). -/
def assessStep (lagThreshold ackPendingThreshold : Int)
    (acc : List String × HealthStatus) (c : ConsumerHealth) :
    List String × HealthStatus :=
  let issues1 := if c.paused = true ∧ 0 < c.pending
    then acc.1 ++ [pausedIssue c] else acc.1
  let status1 := if c.paused = true ∧ 0 < c.pending
    then HealthStatus.unhealthy else acc.2
  let issues2 := if lagThreshold < c.lag
    then issues1 ++ [lagIssue c lagThreshold] else issues1
  let status2 := if lagThreshold < c.lag
    then HealthStatus.unhealthy else status1
  let issues3 := if ackPendingThreshold < c.ack_pending
    then issues2 ++ [ackPendingIssue c ackPendingThreshold] else issues2
  let status3 := if ackPendingThreshold < c.ack_pending
    then (if status2 ≠ HealthStatus.unhealthy then HealthStatus.degraded else status2)
    else status2
  (issues3, status3)

/-- The `assessHealth` function of `src/tools/stream-health.ts` (lines 36–79):
empty consumer list short-circuits to healthy with an informational issue;
otherwise the loop folds `assessStep` over the consumers starting from
`([], healthy)`. -/
def assessHealth (consumers : List ConsumerHealth)
    (lagThreshold ackPendingThreshold : Int) : HealthAssessment :=
  if consumers.length = 0 then
    { status := HealthStatus.healthy, issues := ["No consumers configured"] }
  else
    let r := consumers.foldl (assessStep lagThreshold ackPendingThreshold)
      ([], HealthStatus.healthy)
    { status := r.2, issues := r.1 }

/-- Numeric severity of a health status, encoding the total order
`unhealthy > degraded > healthy` used by the spec. -/
def sev : HealthStatus → Nat
  | HealthStatus.healthy => 0
  | HealthStatus.degraded => 1
  | HealthStatus.unhealthy => 2

/-- Worse of two statuses under the `unhealthy > degraded > healthy` order. -/
def statusMax (a b : HealthStatus) : HealthStatus :=
  if sev a ≤ sev b then b else a

/-- A single consumer's independent contribution to the overall status:
`unhealthy` if it is paused with pending messages or its lag exceeds the
threshold, else `degraded` if its ack-pending count exceeds the threshold,
else `healthy`. -/
def consumerContribution (c : ConsumerHealth)
    (lagThreshold ackPendingThreshold : Int) : HealthStatus :=
  if (c.paused = true ∧ 0 < c.pending) ∨ lagThreshold < c.lag then
    HealthStatus.unhealthy
  else if ackPendingThreshold < c.ack_pending then HealthStatus.degraded
  else HealthStatus.healthy

/-- The issues a single consumer appends, in the fixed order the loop body
checks them: paused-with-pending, then lag, then ack-pending. -/
def consumerIssues (c : ConsumerHealth)
    (lagThreshold ackPendingThreshold : Int) : List String :=
  (if c.paused = true ∧ 0 < c.pending then [pausedIssue c] else [])
    ++ (if lagThreshold < c.lag then [lagIssue c lagThreshold] else [])
    ++ (if ackPendingThreshold < c.ack_pending
        then [ackPendingIssue c ackPendingThreshold] else [])

/-- Worst contribution across a consumer list, folded left like the loop. -/
def worstOf (consumers : List ConsumerHealth)
    (lagThreshold ackPendingThreshold : Int) : HealthStatus :=
  consumers.foldl
    (fun s c => statusMax s (consumerContribution c lagThreshold ackPendingThreshold))
    HealthStatus.healthy

theorem assessStep_snd (lagThreshold ackPendingThreshold : Int)
    (acc : List String × HealthStatus) (c : ConsumerHealth) :
    (assessStep lagThreshold ackPendingThreshold acc c).2
      = statusMax acc.2 (consumerContribution c lagThreshold ackPendingThreshold) := by
  obtain ⟨is, st⟩ := acc
  by_cases h1 : c.paused = true ∧ 0 < c.pending <;>
    by_cases h2 : lagThreshold < c.lag <;>
    by_cases h3 : ackPendingThreshold < c.ack_pending <;>
    cases st <;>
    simp [assessStep, consumerContribution, statusMax, sev, h1, h2, h3]

theorem assessStep_fst (lagThreshold ackPendingThreshold : Int)
    (acc : List String × HealthStatus) (c : ConsumerHealth) :
    (assessStep lagThreshold ackPendingThreshold acc c).1
      = acc.1 ++ consumerIssues c lagThreshold ackPendingThreshold := by
  obtain ⟨is, st⟩ := acc
  by_cases h1 : c.paused = true ∧ 0 < c.pending <;>
    by_cases h2 : lagThreshold < c.lag <;>
    by_cases h3 : ackPendingThreshold < c.ack_pending <;>
    simp [assessStep, consumerIssues, h1, h2, h3]

theorem assessFold_fst (lagThreshold ackPendingThreshold : Int)
    (l : List ConsumerHealth) :
    ∀ acc : List String × HealthStatus,
      (l.foldl (assessStep lagThreshold ackPendingThreshold) acc).1
        = acc.1 ++ (l.map (fun c => consumerIssues c lagThreshold ackPendingThreshold)).flatten := by
  induction l with
  | nil => intro acc; simp
  | cons c rest ih =>
      intro acc
      simp only [List.foldl_cons, List.map_cons, List.flatten]
      rw [ih, assessStep_fst]
      simp [List.append_assoc]

theorem assessFold_snd (lagThreshold ackPendingThreshold : Int)
    (l : List ConsumerHealth) :
    ∀ acc : List String × HealthStatus,
      (l.foldl (assessStep lagThreshold ackPendingThreshold) acc).2
        = l.foldl
            (fun s c => statusMax s (consumerContribution c lagThreshold ackPendingThreshold))
            acc.2 := by
  induction l with
  | nil => intro acc; rfl
  | cons c rest ih =>
      intro acc
      simp only [List.foldl_cons]
      rw [ih]
      simp [assessStep_snd]

theorem sev_le_two (s : HealthStatus) : sev s ≤ 2 := by
  cases s <;> simp [sev]

theorem sev_statusMax (a b : HealthStatus) :
    sev (statusMax a b) = max (sev a) (sev b) := by
  cases a <;> cases b <;> simp [statusMax, sev]

theorem statusMax_left_le (a b : HealthStatus) : sev a ≤ sev (statusMax a b) := by
  rw [sev_statusMax]; exact le_max_left _ _

theorem statusMax_right_le (a b : HealthStatus) : sev b ≤ sev (statusMax a b) := by
  rw [sev_statusMax]; exact le_max_right _ _

theorem sev_injective (a b : HealthStatus) (h : sev a = sev b) : a = b := by
  cases a <;> cases b <;> simp [sev] at h ⊢

theorem statusFold_init_le (f : ConsumerHealth → HealthStatus)
    (l : List ConsumerHealth) :
    ∀ st : HealthStatus, sev st ≤ sev (l.foldl (fun s c => statusMax s (f c)) st) := by
  induction l with
  | nil => intro st; exact le_rfl
  | cons c rest ih =>
      intro st
      exact le_trans (statusMax_left_le st (f c)) (ih (statusMax st (f c)))

theorem statusFold_mem_le (f : ConsumerHealth → HealthStatus)
    (l : List ConsumerHealth) :
    ∀ st : HealthStatus, ∀ c ∈ l,
      sev (f c) ≤ sev (l.foldl (fun s c => statusMax s (f c)) st) := by
  induction l with
  | nil => intro st c hc; exact absurd hc (List.not_mem_nil c)
  | cons d rest ih =>
      intro st c hc
      rcases List.mem_cons.mp hc with h | h
      · subst h
        exact le_trans (statusMax_right_le st (f c))
          (statusFold_init_le f rest (statusMax st (f c)))
      · exact ih (statusMax st (f d)) c h

theorem statusFold_attained (f : ConsumerHealth → HealthStatus)
    (l : List ConsumerHealth) :
    ∀ st : HealthStatus,
      l.foldl (fun s c => statusMax s (f c)) st = st
        ∨ ∃ c ∈ l, l.foldl (fun s c => statusMax s (f c)) st = f c := by
  induction l with
  | nil => intro st; exact Or.inl rfl
  | cons d rest ih =>
      intro st
      rcases ih (statusMax st (f d)) with h | ⟨c, hc, h⟩
      · by_cases hle : sev st ≤ sev (f d)
        · refine Or.inr ⟨d, List.mem_cons_self d rest, ?_⟩
          simpa [List.foldl_cons, statusMax, hle] using h
        · refine Or.inl ?_
          simpa [List.foldl_cons, statusMax, hle] using h
      · exact Or.inr ⟨c, List.mem_cons_of_mem d hc, h⟩

theorem assessHealth_status_eq (lagThreshold ackPendingThreshold : Int)
    (l : List ConsumerHealth) (hl : l ≠ []) :
    (assessHealth l lagThreshold ackPendingThreshold).status
      = worstOf l lagThreshold ackPendingThreshold := by
  have hlen : ¬ l.length = 0 := by simpa using hl
  simp [assessHealth, hlen, worstOf, assessFold_snd]

theorem assessHealth_issues_eq (lagThreshold ackPendingThreshold : Int)
    (l : List ConsumerHealth) (hl : l ≠ []) :
    (assessHealth l lagThreshold ackPendingThreshold).issues
      = (l.map (fun c => consumerIssues c lagThreshold ackPendingThreshold)).flatten := by
  have hlen : ¬ l.length = 0 := by simpa using hl
  simp [assessHealth, hlen, assessFold_fst]

/-- Claim C9 (confirmed): for every pair of threshold values, including zero
and negative ones, `assessHealth` on the empty consumer list returns exactly
status `healthy` with the single informational issue
`"No consumers configured"`. -/
theorem assessHealth_empty_informational (lagThreshold ackPendingThreshold : Int) :
    assessHealth [] lagThreshold ackPendingThreshold
      = { status := HealthStatus.healthy, issues := ["No consumers configured"] } := rfl

/-- Concrete consumer used as counterexample input: paused with 5 pending
messages and lag 2000 (so lag exceeds a threshold of 1000). -/
def pausedLaggingConsumer : ConsumerHealth :=
  { name := "c1", pending := 5, ack_pending := 0, paused := true, lag := 2000 }

/-- Claim C1 counterexample: in `assessHealth` the lag check is NOT an
else-branch of the paused check.  For a consumer that is paused with 5
pending messages and whose lag 2000 exceeds the threshold 1000, the
lag-exceeds-threshold issue IS appended in addition to the
paused-with-pending issue, contradicting the claim that no lag issue is
appended for such a consumer. -/
theorem assessHealth_paused_lag_not_exclusive_cex :
    assessHealth [pausedLaggingConsumer] 1000 100
      = { status := HealthStatus.unhealthy,
          issues := ["Consumer \"c1\" is paused with 5 pending messages",
                     "Consumer \"c1\" lag (2000) exceeds threshold (1000)"] }
    ∧ "Consumer \"c1\" lag (2000) exceeds threshold (1000)"
        ∈ (assessHealth [pausedLaggingConsumer] 1000 100).issues := by
  constructor
  · decide
  · decide

/-- Claim C1 amended (the two unhealthy checks are independent `if`
statements, not an if/else): every consumer that is paused with pending
messages contributes `unhealthy` via the paused-with-pending issue, and when
its lag additionally exceeds the lag threshold the lag-exceeds-threshold
issue is ALSO appended for that same consumer; the overall status is
`unhealthy` either way. -/
theorem assessHealth_paused_also_checks_lag
    (lagThreshold ackPendingThreshold : Int) (l : List ConsumerHealth)
    (c : ConsumerHealth) (hc : c ∈ l)
    (hp : c.paused = true) (hpend : 0 < c.pending) (hlag : lagThreshold < c.lag) :
    pausedIssue c ∈ (assessHealth l lagThreshold ackPendingThreshold).issues
    ∧ lagIssue c lagThreshold ∈ (assessHealth l lagThreshold ackPendingThreshold).issues
    ∧ consumerContribution c lagThreshold ackPendingThreshold = HealthStatus.unhealthy
    ∧ (assessHealth l lagThreshold ackPendingThreshold).status = HealthStatus.unhealthy := by
  have hl : l ≠ [] := by
    intro h
    subst h
    exact absurd hc (List.not_mem_nil c)
  have hIss := assessHealth_issues_eq lagThreshold ackPendingThreshold l hl
  have hmemIss : ∀ x ∈ consumerIssues c lagThreshold ackPendingThreshold,
      x ∈ (assessHealth l lagThreshold ackPendingThreshold).issues := by
    intro x hx
    rw [hIss]
    exact List.mem_flatten.mpr ⟨_, List.mem_map_of_mem _ hc, hx⟩
  have hcontrib : consumerContribution c lagThreshold ackPendingThreshold
      = HealthStatus.unhealthy := by
    simp [consumerContribution, hp, hpend, hlag]
  refine ⟨hmemIss _ ?_, hmemIss _ ?_, hcontrib, ?_⟩
  · simp [consumerIssues, hp, hpend]
  · simp [consumerIssues, hp, hpend, hlag]
  · have hstat := assessHealth_status_eq lagThreshold ackPendingThreshold l hl
    have hle : sev (consumerContribution c lagThreshold ackPendingThreshold)
        ≤ sev (worstOf l lagThreshold ackPendingThreshold) :=
      statusFold_mem_le
        (fun c => consumerContribution c lagThreshold ackPendingThreshold) l
        HealthStatus.healthy c hc
    rw [hcontrib] at hle
    rw [hstat]
    have h2 : sev (worstOf l lagThreshold ackPendingThreshold) = 2 :=
      le_antisymm (sev_le_two _) (by simpa [sev] using hle)
    exact sev_injective _ _ (by rw [h2]; rfl)

/-- Claim C1 amended, witness at the concrete paused-and-lagging consumer. -/
theorem assessHealth_paused_also_checks_lag_witness :
    pausedIssue pausedLaggingConsumer
        ∈ (assessHealth [pausedLaggingConsumer] 1000 100).issues
    ∧ lagIssue pausedLaggingConsumer 1000
        ∈ (assessHealth [pausedLaggingConsumer] 1000 100).issues
    ∧ consumerContribution pausedLaggingConsumer 1000 100 = HealthStatus.unhealthy
    ∧ (assessHealth [pausedLaggingConsumer] 1000 100).status = HealthStatus.unhealthy :=
  assessHealth_paused_also_checks_lag 1000 100 [pausedLaggingConsumer]
    pausedLaggingConsumer (List.mem_singleton.mpr rfl) rfl (by decide) (by decide)

/-- Claim C8 (confirmed): for every non-empty consumer list the final status
is the worst per-consumer contribution under `unhealthy > degraded >
healthy`: it equals the left fold of `statusMax` over the contributions, it
bounds every contribution from above, it is attained by some consumer, each
loop step replaces the running status by `statusMax` of it and the consumer's
contribution (so the ack-pending overage upgrades to `degraded` only when the
running status is not already `unhealthy`, a worse contribution upgrades and
a better one never downgrades), and inserting a consumer whose metrics
independently yield `unhealthy` never produces a better overall status. -/
theorem assessHealth_worst_contribution
    (lagThreshold ackPendingThreshold : Int) (l : List ConsumerHealth) (hl : l ≠ []) :
    (assessHealth l lagThreshold ackPendingThreshold).status
        = worstOf l lagThreshold ackPendingThreshold
    ∧ (∀ c ∈ l, sev (consumerContribution c lagThreshold ackPendingThreshold)
          ≤ sev (assessHealth l lagThreshold ackPendingThreshold).status)
    ∧ (∃ c ∈ l, (assessHealth l lagThreshold ackPendingThreshold).status
          = consumerContribution c lagThreshold ackPendingThreshold)
    ∧ (∀ acc c, (assessStep lagThreshold ackPendingThreshold acc c).2
          = statusMax acc.2 (consumerContribution c lagThreshold ackPendingThreshold))
    ∧ (∀ l1 l2 c,
          consumerContribution c lagThreshold ackPendingThreshold = HealthStatus.unhealthy →
          sev (assessHealth (l1 ++ l2) lagThreshold ackPendingThreshold).status
            ≤ sev (assessHealth (l1 ++ c :: l2) lagThreshold ackPendingThreshold).status) := by
  have hstat := assessHealth_status_eq lagThreshold ackPendingThreshold l hl
  refine ⟨hstat, ?_, ?_,
    fun acc c => assessStep_snd lagThreshold ackPendingThreshold acc c, ?_⟩
  · intro c hc
    rw [hstat]
    exact statusFold_mem_le
      (fun c => consumerContribution c lagThreshold ackPendingThreshold) l
      HealthStatus.healthy c hc
  · rcases statusFold_attained
        (fun c => consumerContribution c lagThreshold ackPendingThreshold) l
        HealthStatus.healthy with h | ⟨c, hc, h⟩
    · obtain ⟨c0, hc0⟩ := List.exists_mem_of_ne_nil l hl
      refine ⟨c0, hc0, ?_⟩
      have hle := statusFold_mem_le
        (fun c => consumerContribution c lagThreshold ackPendingThreshold) l
        HealthStatus.healthy c0 hc0
      rw [h] at hle
      have h0 : sev (consumerContribution c0 lagThreshold ackPendingThreshold) = 0 :=
        Nat.le_zero.mp (by simpa [sev] using hle)
      rw [hstat]
      have hworst : worstOf l lagThreshold ackPendingThreshold = HealthStatus.healthy := h
      rw [hworst]
      exact (sev_injective _ _ (by rw [h0]; rfl)).symm
    · exact ⟨c, hc, by rw [hstat]; exact h⟩
  · intro l1 l2 c hcu
    have hne : l1 ++ c :: l2 ≠ [] := by cases l1 <;> simp
    have hcmem : c ∈ l1 ++ c :: l2 :=
      List.mem_append.mpr (Or.inr (List.mem_cons_self c l2))
    have hstat2 := assessHealth_status_eq lagThreshold ackPendingThreshold
      (l1 ++ c :: l2) hne
    have hle : sev (consumerContribution c lagThreshold ackPendingThreshold)
        ≤ sev (worstOf (l1 ++ c :: l2) lagThreshold ackPendingThreshold) :=
      statusFold_mem_le
        (fun c => consumerContribution c lagThreshold ackPendingThreshold)
        (l1 ++ c :: l2) HealthStatus.healthy c hcmem
    rw [hcu] at hle
    rw [hstat2]
    have h2 : sev (worstOf (l1 ++ c :: l2) lagThreshold ackPendingThreshold) = 2 :=
      le_antisymm (sev_le_two _) (by simpa [sev] using hle)
    rw [h2]
    exact sev_le_two _

/-- Consumer triggering only the ack-pending (degraded) condition under
thresholds 1000 / 100. -/
def ackOnlyConsumer : ConsumerHealth :=
  { name := "c2", pending := 0, ack_pending := 150, paused := false, lag := 0 }

/-- Claim C8, witness: the worst-contribution characterization instantiated
at a concrete two-consumer list. -/
theorem assessHealth_worst_contribution_witness :
    (assessHealth [pausedLaggingConsumer, ackOnlyConsumer] 1000 100).status
      = worstOf [pausedLaggingConsumer, ackOnlyConsumer] 1000 100 :=
  (assessHealth_worst_contribution 1000 100 [pausedLaggingConsumer, ackOnlyConsumer]
    (List.cons_ne_nil _ _)).1

/-- Consumer triggering none of the three conditions under thresholds
1000 / 100. -/
def quietConsumer : ConsumerHealth :=
  { name := "c0", pending := 0, ack_pending := 0, paused := false, lag := 0 }

/-- Claim C10 (confirmed): for every non-empty consumer list the issues come
out grouped by consumer in input order, and within one consumer in the fixed
order paused-with-pending, then lag, then ack-pending; a consumer that
triggers none of the three conditions contributes no issue at all. -/
theorem assessHealth_issue_order (lagThreshold ackPendingThreshold : Int)
    (l : List ConsumerHealth) (hl : l ≠ []) :
    (assessHealth l lagThreshold ackPendingThreshold).issues
        = (l.map (fun c => consumerIssues c lagThreshold ackPendingThreshold)).flatten
    ∧ (∀ c, ¬(c.paused = true ∧ 0 < c.pending) → ¬(lagThreshold < c.lag) →
          ¬(ackPendingThreshold < c.ack_pending) →
          consumerIssues c lagThreshold ackPendingThreshold = []) := by
  refine ⟨assessHealth_issues_eq lagThreshold ackPendingThreshold l hl, ?_⟩
  intro c h1 h2 h3
  simp [consumerIssues, h1, h2, h3]

/-- Claim C10, witness: the issue-order characterization instantiated at a
concrete two-consumer list (one issue-producing consumer, one quiet one). -/
theorem assessHealth_issue_order_witness :
    (assessHealth [pausedLaggingConsumer, quietConsumer] 1000 100).issues
      = ([pausedLaggingConsumer, quietConsumer].map
          (fun c => consumerIssues c 1000 100)).flatten :=
  (assessHealth_issue_order 1000 100 [pausedLaggingConsumer, quietConsumer]
    (List.cons_ne_nil _ _)).1

/-- The mutable module-level connection state of `src/connection.ts`
(lines 12–28).  The `nc`, `js` and `jsm` handles carry no behaviour the
embedded claims depend on, so they are embedded as `Option Unit`: `none`
models the TypeScript `null`. -/
structure ConnectionState where
  nc : Option Unit
  js : Option Unit
  jsm : Option Unit
  isConnected : Bool
  reconnectCount : Nat
  lastReconnectTime : Option Nat
deriving DecidableEq, Repr

/-- Status events delivered by `nc.status()` and dispatched by the `switch`
in `handleStatusEvents` (`src/connection.ts` lines 61–91). -/
inductive NatsEvent where
  | disconnect
  | reconnect (now : Nat)
  | update
  | ldm
  | error (d : String)
  | other (t : String)
deriving DecidableEq, Repr

/-- One iteration of the `switch` in `handleStatusEvents`
(`src/connection.ts` lines 61–91): `Events.Disconnect` clears the connected
flag; `Events.Reconnect` sets it, bumps `reconnectCount`, records the time
and nulls both JetStream handles; every other case only logs. -/
def handleStatusEvent (s : ConnectionState) (e : NatsEvent) : ConnectionState :=
  match e with
  | NatsEvent.disconnect => { s with isConnected := false }
  | NatsEvent.reconnect now =>
      { s with isConnected := true,
               reconnectCount := s.reconnectCount + 1,
               lastReconnectTime := some now,
               js := none, jsm := none }
  | _ => s

/-- The state immediately after a successful `createNatsConnection`
(`src/connection.ts` lines 122–127): all three handles populated,
`isConnected = true`, `reconnectCount = 0`, `lastReconnectTime = null`. -/
def createNatsConnectionState : ConnectionState :=
  { nc := some (), js := some (), jsm := some (), isConnected := true,
    reconnectCount := 0, lastReconnectTime := none }

/-- The spec's `generation` counter.  The code has no explicit generation
variable: it realizes handle invalidation by nulling `js`/`jsm` in the same
reconnect branch that increments `reconnectCount`, so the number of
invalidation events is exactly `reconnectCount`. -/
def generation (s : ConnectionState) : Nat := s.reconnectCount

/-- Error message thrown when `createNatsConnection` was never called
(`src/connection.ts` line 139). -/
def notInitializedMsg : String :=
  "NATS connection not initialized. Call createNatsConnection first."

/-- Error message thrown while disconnected (`src/connection.ts` line 143). -/
def disconnectedMsg : String :=
  "NATS connection is disconnected. Reconnection in progress..."

/-- Error message thrown when the JetStreamManager handle is null
(`src/connection.ts` line 158). -/
def jsmUnavailableMsg : String :=
  "JetStreamManager not available. Try again shortly."

/-- The synchronous accessor `getNatsConnection` of `src/connection.ts`
(lines 137–162).  On success it returns the (possibly `js`-refreshed)
state whose `nc`/`js`/`jsm` fields form the returned bundle; the thrown
`NatsConnectionError`s are embedded as `Except.error` of their message. -/
def getNatsConnection (s : ConnectionState) : Except String ConnectionState :=
  match s.nc with
  | none => Except.error notInitializedMsg
  | some _ =>
    if s.isConnected = false then Except.error disconnectedMsg
    else
      let s1 := if s.js = none ∨ s.jsm = none then { s with js := some () } else s
      match s1.jsm with
      | none => Except.error jsmUnavailableMsg
      | some _ => Except.ok s1

/-- The asynchronous accessor `getNatsConnectionAsync` of `src/connection.ts`
(lines 165–185): refreshes `js` and `jsm` independently when null, then
returns the bundle. -/
def getNatsConnectionAsync (s : ConnectionState) : Except String ConnectionState :=
  match s.nc with
  | none => Except.error notInitializedMsg
  | some _ =>
    if s.isConnected = false then Except.error disconnectedMsg
    else
      let s1 := if s.js = none then { s with js := some () } else s
      let s2 := if s1.jsm = none then { s1 with jsm := some () } else s1
      Except.ok s2

/-- Claim C5 counterexample: in the state reached by one reconnect event
right after a successful connect (connected, but both JetStream handles
nulled), `getNatsConnection` fails with the JetStreamManager-unavailable
message — a third failure case distinct from both `ConnectionNotInitialized`
and `ConnectionUnavailable`, even though the connection is initialized and
connected. -/
theorem getNatsConnection_third_failure_cex :
    getNatsConnection (handleStatusEvent createNatsConnectionState (NatsEvent.reconnect 0))
        = Except.error jsmUnavailableMsg
    ∧ (handleStatusEvent createNatsConnectionState (NatsEvent.reconnect 0)).nc = some ()
    ∧ (handleStatusEvent createNatsConnectionState (NatsEvent.reconnect 0)).isConnected = true
    ∧ jsmUnavailableMsg ≠ notInitializedMsg
    ∧ jsmUnavailableMsg ≠ disconnectedMsg := by
  refine ⟨rfl, rfl, rfl, ?_, ?_⟩ <;> decide

/-- Claim C5 amended: `getNatsConnection` either returns the bundle or fails,
and it has exactly three failure cases: not-initialized when `initialize`
was never called, unavailable when currently disconnected, and additionally
JetStreamManager-unavailable when connected but the manager handle is still
nulled from a reconnect and not yet refreshed; when initialized, connected
and the manager handle is present, it succeeds. -/
theorem getNatsConnection_failure_cases (s : ConnectionState) :
    (s.nc = none → getNatsConnection s = Except.error notInitializedMsg)
    ∧ (s.nc ≠ none → s.isConnected = false →
        getNatsConnection s = Except.error disconnectedMsg)
    ∧ (s.nc ≠ none → s.isConnected = true → s.jsm = none →
        getNatsConnection s = Except.error jsmUnavailableMsg)
    ∧ (s.nc ≠ none → s.isConnected = true → s.jsm ≠ none →
        ∃ s1, getNatsConnection s = Except.ok s1
          ∧ s1.js ≠ none ∧ s1.jsm = s.jsm ∧ s1.nc = s.nc) := by
  obtain ⟨nc, js, jsm, conn, rc, lt⟩ := s
  refine ⟨?_, ?_, ?_, ?_⟩
  · intro h
    subst h
    rfl
  · intro hnc hconn
    cases nc with
    | none => exact absurd rfl hnc
    | some u => subst hconn; rfl
  · intro hnc hconn hjsm
    cases nc with
    | none => exact absurd rfl hnc
    | some u =>
        subst hconn
        subst hjsm
        cases js <;> rfl
  · intro hnc hconn hjsm
    cases nc with
    | none => exact absurd rfl hnc
    | some u =>
        subst hconn
        cases jsm with
        | none => exact absurd rfl hjsm
        | some v =>
            cases js with
            | none =>
                exact ⟨_, rfl, by simp [getNatsConnection], by simp [getNatsConnection], rfl⟩
            | some w =>
                exact ⟨_, rfl, by simp [getNatsConnection], by simp [getNatsConnection], rfl⟩

/-- Claim C5 amended, witness: the third failure case at the concrete
post-reconnect state. -/
theorem getNatsConnection_failure_cases_witness :
    getNatsConnection (handleStatusEvent createNatsConnectionState (NatsEvent.reconnect 7))
      = Except.error jsmUnavailableMsg :=
  (getNatsConnection_failure_cases
      (handleStatusEvent createNatsConnectionState (NatsEvent.reconnect 7))).2.2.1
    (by decide) rfl rfl

/-- Claim C6 (confirmed): a reconnect event increments `reconnectCount` by
exactly 1, sets `lastReconnectTime` to the event time, sets the connected
flag, and invalidates both derived JetStream handles (nulls them, advancing
the implicit generation — realized as the invalidation-event count — in
lock-step with `reconnectCount`), forcing them to be recreated before next
use (as `getNatsConnectionAsync` then does); immediately after a successful
`createNatsConnection`, `reconnectCount` and the generation are `0`. -/
theorem reconnect_event_advances_generation (s : ConnectionState) (now : Nat) :
    handleStatusEvent s (NatsEvent.reconnect now)
        = { s with isConnected := true,
                   reconnectCount := s.reconnectCount + 1,
                   lastReconnectTime := some now,
                   js := none, jsm := none }
    ∧ generation (handleStatusEvent s (NatsEvent.reconnect now)) = generation s + 1
    ∧ (handleStatusEvent s (NatsEvent.reconnect now)).js = none
    ∧ (handleStatusEvent s (NatsEvent.reconnect now)).jsm = none
    ∧ createNatsConnectionState.reconnectCount = 0
    ∧ generation createNatsConnectionState = 0
    ∧ getNatsConnectionAsync (handleStatusEvent createNatsConnectionState
        (NatsEvent.reconnect now))
        = Except.ok { nc := some (), js := some (), jsm := some (),
                      isConnected := true, reconnectCount := 1,
                      lastReconnectTime := some now } :=
  ⟨rfl, rfl, rfl, rfl, rfl, rfl, rfl⟩

/-- Claim C7 (confirmed): a disconnect event sets `isConnected = false` and
changes nothing else — the derived handles, `reconnectCount`,
`lastReconnectTime`, the primary session handle and the (implicit)
generation are all untouched. -/
theorem disconnect_event_frame (s : ConnectionState) :
    handleStatusEvent s NatsEvent.disconnect = { s with isConnected := false }
    ∧ (handleStatusEvent s NatsEvent.disconnect).js = s.js
    ∧ (handleStatusEvent s NatsEvent.disconnect).jsm = s.jsm
    ∧ (handleStatusEvent s NatsEvent.disconnect).reconnectCount = s.reconnectCount
    ∧ (handleStatusEvent s NatsEvent.disconnect).lastReconnectTime = s.lastReconnectTime
    ∧ (handleStatusEvent s NatsEvent.disconnect).nc = s.nc
    ∧ generation (handleStatusEvent s NatsEvent.disconnect) = generation s :=
  ⟨rfl, rfl, rfl, rfl, rfl, rfl, rfl⟩

/-- Hard ceiling on listening time, `MAX_TIMEOUT_MS` in
`src/tools/subscribe.ts` line 8 (the same literal is declared locally in the
`nats_kv_watch` handler in `src/tools/kv.ts`). -/
def MAX_TIMEOUT_MS : Nat := 30000

/-- Hard ceiling on collected messages, `MAX_MESSAGES` in
`src/tools/subscribe.ts` line 9. -/
def MAX_MESSAGES : Nat := 100

/-- A JSON value, modelling the structured payload the handlers pass to
`JSON.stringify`; the serialization itself is injective on this view, so the
claims are settled on the structured value. -/
inductive Json where
  | str (s : String)
  | num (n : Int)
  | jbool (b : Bool)
  | jnull
  | arr (elems : List Json)
  | obj (fields : List (String × Json))

/-- Whether a JSON value is an object carrying the given top-level key. -/
def jsonHasKey (k : String) : Json → Bool
  | Json.obj fields => fields.any (fun f => f.1 == k)
  | _ => false

/-- Number of elements of a JSON array (0 for non-arrays). -/
def jsonArrayLength : Json → Nat
  | Json.arr elems => elems.length
  | _ => 0

/-- A collected message as pushed by the `nats_subscribe` loop
(`src/tools/subscribe.ts` lines 56–60); `timestamp` is the
`new Date().toISOString()` string, supplied here by the arrival script. -/
structure NatsMsg where
  subject : String
  data : String
  timestamp : String
deriving DecidableEq, Repr

/-- JSON object for one collected message, with the field order of
`src/tools/subscribe.ts` lines 56–60. -/
def msgJson (m : NatsMsg) : Json :=
  Json.obj [("subject", Json.str m.subject), ("data", Json.str m.data),
            ("timestamp", Json.str m.timestamp)]

/-- What the handlers return: the structured payload that is
`JSON.stringify`-ed into the single text content item, plus the `isError`
flag of the MCP tool result. -/
structure ToolResult where
  payload : Json
  isError : Bool

/-- The deterministic event-loop semantics of the `nats_subscribe` race
(`src/tools/subscribe.ts` lines 45–69) over a script of messages in arrival
order, each tagged with its arrival time in ms after the call: a message
arriving strictly before the (clamped) timeout is pushed; after the push the
loop breaks as soon as the buffer reaches the (clamped) maximum; the first
arrival at or after the timeout finds the subscription already unsubscribed
by the timer callback. -/
def collectMessages (effectiveTimeout effectiveMax : Nat) (count : Nat) :
    List (Nat × NatsMsg) → List NatsMsg
  | [] => []
  | (t, m) :: rest =>
      if effectiveTimeout ≤ t then []
      else if effectiveMax ≤ count + 1 then [m]
      else m :: collectMessages effectiveTimeout effectiveMax (count + 1) rest

/-- Whether the message arm of the race wins: the break on
`messages.length >= effectiveMaxMessages` fires on a message that arrived
strictly before the timer. -/
def maxReachedBeforeTimeout (effectiveTimeout effectiveMax : Nat) (count : Nat) :
    List (Nat × NatsMsg) → Bool
  | [] => false
  | (t, _) :: rest =>
      if effectiveTimeout ≤ t then false
      else if effectiveMax ≤ count + 1 then true
      else maxReachedBeforeTimeout effectiveTimeout effectiveMax (count + 1) rest

/-- The `nats_subscribe` handler (`src/tools/subscribe.ts` lines 26–76):
clamps `timeout` and `max_messages` to the hard ceilings, races the
collection loop against the timer, and returns the collected messages array
as the payload with `isError` unset; nothing about which arm won the race is
reported. -/
def natsSubscribe (timeout max_messages : Nat)
    (script : List (Nat × NatsMsg)) : ToolResult :=
  let effectiveTimeout := min timeout MAX_TIMEOUT_MS
  let effectiveMaxMessages := min max_messages MAX_MESSAGES
  { payload := Json.arr
      ((collectMessages effectiveTimeout effectiveMaxMessages 0 script).map msgJson),
    isError := false }

/-- Cancellation bookkeeping of one bounded-wait call, read off the source:
which cleanup primitives the handler invokes and whether the timer is still
scheduled when the handler returns. -/
structure CleanupTrace where
  sourceStopped : Bool
  timerCleared : Bool
  timerPendingAtReturn : Bool
deriving DecidableEq, Repr

/-- Cleanup behaviour of the `nats_subscribe` race
(`src/tools/subscribe.ts` lines 47–69): `sub.unsubscribe()` is called on
both arms — inside the `setTimeout` callback when the timer wins (line 49)
and inside the loop when the maximum is reached (line 63) — so the source is
always stopped; no `clearTimeout` exists anywhere in the handler, so the
timer is never cleared, and when the message arm wins before the timeout the
timer is still scheduled at the moment `Promise.race` settles and the
handler returns (it fires later and calls `sub.unsubscribe()` again). -/
def natsSubscribeCleanup (timeout max_messages : Nat)
    (script : List (Nat × NatsMsg)) : CleanupTrace :=
  let effectiveTimeout := min timeout MAX_TIMEOUT_MS
  let effectiveMaxMessages := min max_messages MAX_MESSAGES
  { sourceStopped := true,
    timerCleared := false,
    timerPendingAtReturn :=
      maxReachedBeforeTimeout effectiveTimeout effectiveMaxMessages 0 script }

/-- A KV entry as pushed by the `nats_kv_watch` loop
(`src/tools/kv.ts` lines 345–353). -/
structure KvEntry where
  key : String
  value : String
  revision : Int
  operation : String
  created : String
deriving DecidableEq, Repr

/-- JSON object for one watch entry, with the field order of
`src/tools/kv.ts` lines 346–352. -/
def entryJson (e : KvEntry) : Json :=
  Json.obj [("key", Json.str e.key), ("value", Json.str e.value),
            ("revision", Json.num e.revision),
            ("operation", Json.str e.operation),
            ("created", Json.str e.created)]

/-- The deterministic event-loop semantics of the `nats_kv_watch` collection
loop (`src/tools/kv.ts` lines 344–355): every entry delivered strictly
before the (clamped) timeout is pushed — the loop has no count check at all
— and the first delivery at or after the timeout finds the watch already
stopped by the timer callback. -/
def collectEntries (effectiveTimeout : Nat) :
    List (Nat × KvEntry) → List KvEntry
  | [] => []
  | (t, e) :: rest =>
      if effectiveTimeout ≤ t then []
      else e :: collectEntries effectiveTimeout rest

/-- The `nats_kv_watch` handler (`src/tools/kv.ts` lines 307–371): rejects a
missing bucket as an error result, clamps only `timeout` to 30000 (the tool
has no max-items input and the loop no count bound), races the watch
iterator against the timer, and returns the collected entries array with
`isError` unset. -/
def natsKvWatch (bucket : String) (bucketExists : Bool) (timeout : Nat)
    (script : List (Nat × KvEntry)) : ToolResult :=
  if bucketExists = false then
    { payload := Json.str
        ("Error watching bucket: bucket \"" ++ bucket ++ "\" not found"),
      isError := true }
  else
    let effectiveTimeout := min timeout MAX_TIMEOUT_MS
    { payload := Json.arr ((collectEntries effectiveTimeout script).map entryJson),
      isError := false }

/-- Cleanup behaviour of the `nats_kv_watch` race (`src/tools/kv.ts`
lines 338–357): the watch iterator never completes on its own, so the timer
always wins and its callback calls `watch.stop()` (line 340) — the source is
stopped and the timer has already fired at return; no `clearTimeout` exists
in the handler. -/
def natsKvWatchCleanup : CleanupTrace :=
  { sourceStopped := true,
    timerCleared := false,
    timerPendingAtReturn := false }

/-- Claim C2 counterexample: with zero incoming items and a 500 ms timeout,
`nats_subscribe` returns the bare empty messages array — not the claimed
`{items: [], timedOut: true}` record: the payload carries no `timedOut` key
and is not the spec's `WaitResult` object. -/
theorem natsSubscribe_no_timedOut_cex :
    natsSubscribe 500 10 [] = { payload := Json.arr [], isError := false }
    ∧ jsonHasKey "timedOut" (natsSubscribe 500 10 []).payload = false
    ∧ (natsSubscribe 500 10 []).payload
        ≠ Json.obj [("items", Json.arr []), ("timedOut", Json.jbool true)] := by
  refine ⟨rfl, rfl, ?_⟩
  intro h
  rw [show (natsSubscribe 500 10 []).payload = Json.arr [] from rfl] at h
  exact Json.noConfusion h

/-- Claim C2 amended: every `nats_subscribe` call returns only the ordered
collected-messages array with `isError = false` — a timeout is a normal
successful outcome, never an error — and no `timedOut` boolean is reported;
in particular with zero incoming items and `timeout = 500` the result is the
empty array. -/
theorem natsSubscribe_returns_items_only (timeout max_messages : Nat)
    (script : List (Nat × NatsMsg)) :
    (natsSubscribe timeout max_messages script).isError = false
    ∧ (natsSubscribe timeout max_messages script).payload
        = Json.arr ((collectMessages (min timeout MAX_TIMEOUT_MS)
            (min max_messages MAX_MESSAGES) 0 script).map msgJson)
    ∧ jsonHasKey "timedOut" (natsSubscribe timeout max_messages script).payload = false
    ∧ natsSubscribe 500 10 [] = { payload := Json.arr [], isError := false } :=
  ⟨rfl, rfl, rfl, rfl⟩

/-- First concrete message for the counterexample runs. -/
def msgA : NatsMsg := { subject := "a", data := "1", timestamp := "t1" }

/-- Second concrete message for the counterexample runs. -/
def msgB : NatsMsg := { subject := "b", data := "2", timestamp := "t2" }

/-- Claim C3 counterexample: in a run where the items arm wins (2 messages
arrive at 0 ms and 1 ms against `max_messages = 2` and a 5000 ms timeout),
the pending timer is NOT cleared: the handler contains no `clearTimeout`,
and the timer is still scheduled when the call returns — background work
outlives the call. -/
theorem natsSubscribe_timer_not_cleared_cex :
    maxReachedBeforeTimeout (min 5000 MAX_TIMEOUT_MS) (min 2 MAX_MESSAGES) 0
        [(0, msgA), (1, msgB)] = true
    ∧ (natsSubscribeCleanup 5000 2 [(0, msgA), (1, msgB)]).timerCleared = false
    ∧ (natsSubscribeCleanup 5000 2 [(0, msgA), (1, msgB)]).timerPendingAtReturn
        = true :=
  ⟨rfl, rfl, rfl⟩

/-- Claim C3 amended: the source never outlives the call — `nats_subscribe`
unsubscribes it on both race arms (in the timer callback when the timer
wins, in the loop when the maximum is reached), and the `nats_kv_watch`
timer callback stops the watch — but the losing timer is never cleared:
no `clearTimeout` exists, and exactly when the items arm wins the timer is
still pending at return, firing later as a duplicate (no-op) unsubscribe. -/
theorem boundedWait_cleanup (timeout max_messages : Nat)
    (script : List (Nat × NatsMsg)) :
    (natsSubscribeCleanup timeout max_messages script).sourceStopped = true
    ∧ (natsSubscribeCleanup timeout max_messages script).timerCleared = false
    ∧ (natsSubscribeCleanup timeout max_messages script).timerPendingAtReturn
        = maxReachedBeforeTimeout (min timeout MAX_TIMEOUT_MS)
            (min max_messages MAX_MESSAGES) 0 script
    ∧ natsKvWatchCleanup.sourceStopped = true
    ∧ natsKvWatchCleanup.timerCleared = false :=
  ⟨rfl, rfl, rfl, rfl, rfl⟩

/-- Script delivering 101 watch entries, one per millisecond from 0 ms. -/
def manyEntriesScript : List (Nat × KvEntry) :=
  (List.range 101).map
    (fun i => (i, { key := "k", value := "v", revision := Int.ofNat i,
                    operation := "PUT", created := "t" }))

/-- Claim C4 counterexample: `nats_kv_watch` applies no max-items bound — a
watch receiving 101 entries inside a 5000 ms window returns all 101 of them,
exceeding the claimed ceiling of 100. -/
theorem natsKvWatch_over_100_items_cex :
    jsonArrayLength (natsKvWatch "b" true 5000 manyEntriesScript).payload = 101
    ∧ 100 < jsonArrayLength (natsKvWatch "b" true 5000 manyEntriesScript).payload := by
  have h : jsonArrayLength (natsKvWatch "b" true 5000 manyEntriesScript).payload
      = 101 := rfl
  exact ⟨h, by rw [h]; norm_num⟩

/-- Claim C4 amended: `nats_kv_watch` clamps only `timeoutMillis` to the
30000 ms ceiling; it has no max-items input and applies no count bound, so
the returned entries list holds every entry delivered before the clamped
timeout (and, as the counterexample shows, can exceed 100 entries). -/
theorem natsKvWatch_clamps_timeout_only (bucket : String) (timeout : Nat)
    (script : List (Nat × KvEntry)) :
    natsKvWatch bucket true timeout script
        = natsKvWatch bucket true (min timeout MAX_TIMEOUT_MS) script
    ∧ (natsKvWatch bucket true timeout script).payload
        = Json.arr ((collectEntries (min timeout MAX_TIMEOUT_MS) script).map entryJson)
    ∧ (natsKvWatch bucket true timeout script).isError = false := by
  refine ⟨?_, rfl, rfl⟩
  simp [natsKvWatch, Nat.min_assoc, Nat.min_self]

end McpNats
